import Mathlib

/-
Verification of the MiniMon disk rolling log feed
(src/feeds/disk_rolling_log_feed_py/minimon_feed.py).

The script is embedded shallowly:

* Side effects (opening a file, printing to standard output, appending to a
  file, sleeping) are recorded as an explicit list of `Event`s in the order
  the Python statements execute them.
* The host environment (process id, epoch seconds, the successive values
  returned by `time.strftime`, and which file operations fail) is an explicit
  `Env` record; failures of `open` and `f.write` and the arrival point of an
  external `KeyboardInterrupt` are the only sources of non-determinism in the
  script, and they are resolved by `Env` and by the cancellation parameter
  `k` of the run loop.
* Exceptions (`IOError`, `KeyboardInterrupt`) are explicit values; a Python
  `try ... finally` becomes sequencing of the body result with the finally
  block, the finally exception replacing the body exception when both occur,
  exactly as in Python.
-/

/-- Exceptions that can propagate in the script: `IOError` from a failed file
open or write, and `KeyboardInterrupt` delivered by external cancellation. -/
inductive PyExn where
  | ioError : PyExn
  | keyboardInterrupt : PyExn
deriving DecidableEq

/-- Observable actions of the script, in program order: a successful file open
in append mode, bytes emitted to standard output, bytes appended to a file,
and the `time.sleep(10)` suspension point. -/
inductive Event where
  | fileOpen : String → Event
  | console : String → Event
  | fileAppend : String → String → Event
  | sleep : Event
deriving DecidableEq

/-- Host environment of one process run: the process id and construction-time
epoch seconds (read by `os.getpid()` and `int(time.time())`), the timestamp
string returned by the strftime call number `n` (the call numbering allots two
slots per `_write_log` call: slot `2*c` for the `print` line and `2*c+1` for
the `f.write` line of call number `c`), and which `_write_log` calls fail at
the `open` or at the `f.write` step. -/
structure Env where
  pid : Nat
  epoch : Nat
  clock : Nat → String
  openFails : Nat → Bool
  writeFails : Nat → Bool

/-- No file operation fails in this environment. -/
def NoFail (env : Env) : Prop :=
  (∀ n, env.openFails n = false) ∧ (∀ n, env.writeFails n = false)

/-- Line built by the f-string inside the `print` statement of `_write_log`
call number `c`: the first strftime result, then a colon-space, the message,
and a newline. -/
def pline (env : Env) (c : Nat) (message : String) : String :=
  env.clock (2 * c) ++ ": " ++ message ++ "\n"

/-- Line built by the f-string inside the `f.write` statement of `_write_log`
call number `c`: the second strftime result, then a colon-space, the message,
and a newline. -/
def lineAt (env : Env) (c : Nat) (message : String) : String :=
  env.clock (2 * c + 1) ++ ": " ++ message ++ "\n"

/-- Embedding of `MiniMonFeed._write_log(self, path, message)`:
`with open(path, "a", buffering=1) as f:` then
`print(f-string)` then `f.write(f-string)`.
If the open fails nothing is executed and an `IOError` propagates; otherwise
the line is printed (Python `print` adds its own newline to the argument, so
the console receives the built line plus one extra newline) and then written;
a failing write propagates an `IOError` after the print already happened.
`c` is the number of `_write_log` calls made before this one. -/
def write_log (env : Env) (c : Nat) (path message : String) :
    List Event × Option PyExn :=
  if env.openFails c then
    ([], some PyExn.ioError)
  else if env.writeFails c then
    ([Event.fileOpen path, Event.console (pline env c message ++ "\n")],
     some PyExn.ioError)
  else
    ([Event.fileOpen path, Event.console (pline env c message ++ "\n"),
      Event.fileAppend path (lineAt env c message)], none)

/-- Embedding of `os.path.join(a, b)` restricted to the case exercised by the
script, where the second component is a relative file name (it never begins
with a path separator): the name is appended directly when the directory is
empty or already ends with the separator, otherwise one separator is
inserted. -/
def os_path_join (a b : String) : String :=
  if a = "" ∨ a.data.getLast? = some '/' then a ++ b else a ++ "/" ++ b

/-- State of a `MiniMonFeed` object: the fields assigned in `__init__` and
never reassigned afterwards. -/
structure MiniMonFeed where
  output_dir : String
  pid : Nat
  start_log_path : String
  run_log_path : String
  stop_log_path : String

/-- Embedding of `MiniMonFeed.__init__(self, output_dir)`: captures the
process id and the construction-time epoch seconds and computes the three
paths, `start.log`, `<epoch>_<pid>_run.log` and `stop.log`, under the output
directory. -/
def MiniMonFeed.init (output_dir : String) (pid epoch : Nat) : MiniMonFeed :=
  { output_dir := output_dir
    pid := pid
    start_log_path := os_path_join output_dir "start.log"
    run_log_path :=
      os_path_join output_dir
        (Nat.repr epoch ++ "_" ++ Nat.repr pid ++ "_run.log")
    stop_log_path := os_path_join output_dir "stop.log" }

/-- Embedding of `MiniMonFeed.start_log(self)`:
a write of the message pid, separator, `Program started` to the start path. -/
def start_log (env : Env) (c : Nat) (feed : MiniMonFeed) :
    List Event × Option PyExn :=
  write_log env c feed.start_log_path (Nat.repr feed.pid ++ ": Program started")

/-- Embedding of `MiniMonFeed.stop_log(self)`:
a write of the message `End logging pid: Program stopped` to the stop path. -/
def stop_log (env : Env) (c : Nat) (feed : MiniMonFeed) :
    List Event × Option PyExn :=
  write_log env c feed.stop_log_path
    ("End logging " ++ Nat.repr feed.pid ++ ": Program stopped")

/-- Embedding of the `while True:` body of `MiniMonFeed.run_log`: write
the INFO line numbered `i + 1`, sleep ten seconds, increment `i`, repeat.
The loop never exits normally; `k` fixes where the external
`KeyboardInterrupt` is delivered: at the loop entry when `k = 0`, otherwise
during the sleep that follows the `k`-th INFO write, so `k` is the number of
completed iterations. A failed write raises `IOError` out of the loop.
Returns the events, the exception that left the loop, and the next
`_write_log` call number. -/
def while_loop (env : Env) (p : String) (c i k : Nat) :
    List Event × PyExn × Nat :=
  match k with
  | 0 => ([], PyExn.keyboardInterrupt, c)
  | k + 1 =>
    match write_log env c p ("INFO: Running log message " ++ Nat.repr (i + 1)) with
    | (ev, some e) => (ev, e, c + 1)
    | (ev, none) =>
      match k with
      | 0 => (ev ++ [Event.sleep], PyExn.keyboardInterrupt, c + 1)
      | k + 1 =>
        let r := while_loop env p (c + 1) (i + 1) (k + 1)
        (ev ++ Event.sleep :: r.1, r.2.1, r.2.2)

/-- Body of the `try` in `MiniMonFeed.run_log(self)`: write
the line `Start logging` with the pid to the run log, then enter the loop with
`i = 0`. The body always leaves by an exception because the loop is
unbounded. -/
def run_log_body (env : Env) (feed : MiniMonFeed) (c k : Nat) :
    List Event × PyExn × Nat :=
  match write_log env c feed.run_log_path
      ("Start logging: " ++ Nat.repr feed.pid) with
  | (ev, some e) => (ev, e, c + 1)
  | (ev, none) =>
    let r := while_loop env feed.run_log_path (c + 1) 0 k
    (ev ++ r.1, r.2.1, r.2.2)

/-- Embedding of `MiniMonFeed.run_log(self)`: the `try` body above, then the
`finally` clause which writes the `End logging` line with the pid to the run log
unconditionally; when the finally write itself raises, its exception replaces
the one from the body, as in Python. -/
def run_log (env : Env) (feed : MiniMonFeed) (c k : Nat) :
    List Event × PyExn × Nat :=
  let b := run_log_body env feed c k
  let f := write_log env b.2.2 feed.run_log_path
    ("End logging: " ++ Nat.repr feed.pid)
  (b.1 ++ f.1, f.2.getD b.2.1, b.2.2 + 1)

/-- Final fate of the process in the `__main__` block: a `sys.exit(code)` or
an exception that propagated out of the script uncaught. -/
inductive MainResult where
  | exited : Nat → MainResult
  | uncaught : PyExn → MainResult
deriving DecidableEq

/-- The usage string printed when the argument count is wrong. -/
def usageMsg : String := "Usage: python minimon_feed.py <output_dir>"

/-- Body of the top-level `try` in `__main__`: `feed.start_log()` then
`feed.run_log()`. If the start write raises, the run loop is never entered;
otherwise the result is that of the run loop, which always raises. -/
def main_body (env : Env) (feed : MiniMonFeed) (k : Nat) :
    List Event × PyExn × Nat :=
  match start_log env 0 feed with
  | (ev, some e) => (ev, e, 1)
  | (ev, none) =>
    let r := run_log env feed 1 k
    (ev ++ r.1, r.2.1, r.2.2)

/-- Embedding of the `__main__` block. `argv` is `sys.argv` (script name
first). With an argument count other than two: print the usage message and
`sys.exit(1)` before any logger is constructed. Otherwise construct the feed
from `sys.argv[1]`, run the `try` body, and in the `finally` clause call
`feed.stop_log()`; the surviving exception (the stop write failure if any,
else the body exception) then propagates out of the script uncaught. -/
def main_run (env : Env) (argv : List String) (k : Nat) :
    List Event × MainResult :=
  if argv.length ≠ 2 then
    ([Event.console (usageMsg ++ "\n")], MainResult.exited 1)
  else
    let feed := MiniMonFeed.init (argv.getD 1 "") env.pid env.epoch
    let b := main_body env feed k
    let s := stop_log env b.2.2 feed
    (b.1 ++ s.1, MainResult.uncaught (s.2.getD b.2.1))

/-- Modelled from the Python runtime semantics of process termination (not
part of the repository source): `sys.exit(n)` ends the process with status
`n`; an uncaught `KeyboardInterrupt` makes the interpreter re-deliver SIGINT
to itself, observed by the parent shell as status 130; any other uncaught
exception prints a traceback and yields status 1. In particular an uncaught
exception never yields status 0. -/
def exit_status : MainResult → Nat
  | MainResult.exited n => n
  | MainResult.uncaught PyExn.keyboardInterrupt => 130
  | MainResult.uncaught PyExn.ioError => 1

/-- Bytes written to standard output by a list of events, in order. -/
def consoleOf : List Event → String
  | [] => ""
  | Event.console s :: es => s ++ consoleOf es
  | Event.fileOpen _ :: es => consoleOf es
  | Event.fileAppend _ _ :: es => consoleOf es
  | Event.sleep :: es => consoleOf es

/-- Strings appended to the file at path `q` by a list of events, in order. -/
def appendsTo (q : String) : List Event → List String
  | [] => []
  | Event.fileAppend p s :: es =>
    if p = q then s :: appendsTo q es else appendsTo q es
  | Event.fileOpen _ :: es => appendsTo q es
  | Event.console _ :: es => appendsTo q es
  | Event.sleep :: es => appendsTo q es

/-- Effect of a list of events on a file system, given as the map from a path
to the byte content of the file at that path; an append-mode write extends
the current content at the end. -/
def applyEvents : List Event → (String → String) → (String → String)
  | [], fs => fs
  | Event.fileAppend p s :: es, fs =>
    applyEvents es (fun q => if q = p then fs q ++ s else fs q)
  | Event.fileOpen _ :: es, fs => applyEvents es fs
  | Event.console _ :: es, fs => applyEvents es fs
  | Event.sleep :: es, fs => applyEvents es fs

/-- The file path an event touches, if any. -/
def touches : Event → Option String
  | Event.fileOpen p => some p
  | Event.fileAppend p _ => some p
  | Event.console _ => none
  | Event.sleep => none

/-- Concatenation of a list of strings. -/
def catStrings : List String → String
  | [] => ""
  | s :: l => s ++ catStrings l

/-- The lines the run log is required to receive when the loop is cancelled
after `k` completed iterations, with call numbering starting at `c`: the
start marker, the INFO lines numbered 1 through `k`, then the end marker. -/
def expectedRunLines (env : Env) (pid c k : Nat) : List String :=
  lineAt env c ("Start logging: " ++ Nat.repr pid) ::
    (List.range k).map
      (fun n => lineAt env (c + 1 + n)
        ("INFO: Running log message " ++ Nat.repr (n + 1)))
    ++ [lineAt env (c + 1 + k) ("End logging: " ++ Nat.repr pid)]

/-- Failure-free concrete environment with distinguishable timestamps, used
to evaluate the embedding on concrete inputs. -/
def envC : Env :=
  { pid := 100
    epoch := 1700000000
    clock := fun n => "2023-11-14 22:13:" ++ Nat.repr n
    openFails := fun _ => false
    writeFails := fun _ => false }

/-- Failure-free concrete environment with a constant clock. -/
def envK : Env :=
  { pid := 100
    epoch := 1700000000
    clock := fun _ => "2023-11-14 22:13:20"
    openFails := fun _ => false
    writeFails := fun _ => false }

/-- Concrete environment whose write-log call number 0 fails at the open. -/
def envOpenFail : Env :=
  { pid := 100
    epoch := 1700000000
    clock := fun _ => "2023-11-14 22:13:20"
    openFails := fun n => n == 0
    writeFails := fun _ => false }

/-- Concrete environment whose write-log call number 0 opens its file but
fails at the write. -/
def envWriteFail : Env :=
  { pid := 100
    epoch := 1700000000
    clock := fun _ => "2023-11-14 22:13:20"
    openFails := fun _ => false
    writeFails := fun n => n == 0 }

/-- Unfolding of a `_write_log` call whose open fails. -/
theorem write_log_openFail (env : Env) (c : Nat) (p m : String)
    (h : env.openFails c = true) :
    write_log env c p m = ([], some PyExn.ioError) := by
  simp [write_log, h]

/-- Unfolding of a `_write_log` call whose open succeeds and whose write
fails. -/
theorem write_log_writeFail (env : Env) (c : Nat) (p m : String)
    (ho : env.openFails c = false) (hw : env.writeFails c = true) :
    write_log env c p m =
      ([Event.fileOpen p, Event.console (pline env c m ++ "\n")],
       some PyExn.ioError) := by
  simp [write_log, ho, hw]

/-- Unfolding of a fully successful `_write_log` call. -/
theorem write_log_ok (env : Env) (c : Nat) (p m : String)
    (ho : env.openFails c = false) (hw : env.writeFails c = false) :
    write_log env c p m =
      ([Event.fileOpen p, Event.console (pline env c m ++ "\n"),
        Event.fileAppend p (lineAt env c m)], none) := by
  simp [write_log, ho, hw]

/-- File appends recorded by a concatenation of traces. -/
theorem appendsTo_append (q : String) (a b : List Event) :
    appendsTo q (a ++ b) = appendsTo q a ++ appendsTo q b := by
  induction a with
  | nil => simp [appendsTo]
  | cons e es ih =>
    cases e with
    | fileOpen p => simpa [appendsTo] using ih
    | console s => simpa [appendsTo] using ih
    | fileAppend p s =>
      by_cases hp : p = q <;> simp [appendsTo, hp, ih]
    | sleep => simpa [appendsTo] using ih

/-- Console bytes recorded by a concatenation of traces. -/
theorem consoleOf_append (a b : List Event) :
    consoleOf (a ++ b) = consoleOf a ++ consoleOf b := by
  induction a with
  | nil => simp [consoleOf]
  | cons e es ih =>
    cases e with
    | fileOpen p => simpa [consoleOf] using ih
    | console s => simp [consoleOf, ih, String.append_assoc]
    | fileAppend p s => simpa [consoleOf] using ih
    | sleep => simpa [consoleOf] using ih

/-- A trace whose appends all avoid `q` appends nothing to `q`. -/
theorem appendsTo_eq_nil (q : String) (es : List Event)
    (h : ∀ p s, Event.fileAppend p s ∈ es → p ≠ q) :
    appendsTo q es = [] := by
  induction es with
  | nil => simp [appendsTo]
  | cons e es ih =>
    have ih' := ih (fun p s hm => h p s (List.mem_cons_of_mem _ hm))
    cases e with
    | fileOpen p => simpa [appendsTo] using ih'
    | console s => simpa [appendsTo] using ih'
    | fileAppend p s =>
      have hne : p ≠ q := h p s (List.mem_cons_self _ _)
      simp [appendsTo, hne, ih']
    | sleep => simpa [appendsTo] using ih'

/-- Decimal digit extraction always produces at least one character beyond
the accumulator when given positive fuel. -/
theorem toDigitsCore_len (b : Nat) :
    ∀ (fuel n : Nat) (ds : List Char),
      ds.length + 1 ≤ (Nat.toDigitsCore b (fuel + 1) n ds).length := by
  intro fuel
  induction fuel with
  | zero =>
    intro n ds
    simp only [Nat.toDigitsCore]
    split
    · simp
    · simp [Nat.toDigitsCore]
  | succ f ih =>
    intro n ds
    simp only [Nat.toDigitsCore]
    split
    · simp
    · exact le_trans (by simp) (ih (n / b) _)

/-- The decimal representation of a natural number is never empty. -/
theorem one_le_length_repr (n : Nat) : 1 ≤ (Nat.repr n).length := by
  show 1 ≤ ((Nat.toDigits 10 n).asString).length
  rw [List.length_asString]
  simpa [Nat.toDigits] using toDigitsCore_len 10 n n []

/-- The directory part every joined path starts with: the directory itself,
with a separator added unless it is empty or already ends with one. -/
def joinBase (a : String) : String :=
  if a = "" ∨ a.data.getLast? = some '/' then a else a ++ "/"

/-- A join is the directory prefix followed by the file name. -/
theorem os_path_join_eq (a b : String) :
    os_path_join a b = joinBase a ++ b := by
  unfold os_path_join joinBase
  split <;> rfl

/-- The start path and the stop path of one feed differ. -/
theorem start_ne_stop_path (dir : String) (pid epoch : Nat) :
    (MiniMonFeed.init dir pid epoch).start_log_path ≠
      (MiniMonFeed.init dir pid epoch).stop_log_path := by
  intro h
  have h' := congrArg String.length h
  simp only [MiniMonFeed.init, os_path_join_eq, String.length_append] at h'
  have e1 : ("start.log" : String).length = 9 := by decide
  have e2 : ("stop.log" : String).length = 8 := by decide
  rw [e1, e2] at h'
  omega

/-- The run path and the start path of one feed differ. -/
theorem run_ne_start_path (dir : String) (pid epoch : Nat) :
    (MiniMonFeed.init dir pid epoch).run_log_path ≠
      (MiniMonFeed.init dir pid epoch).start_log_path := by
  intro h
  have h' := congrArg String.length h
  simp only [MiniMonFeed.init, os_path_join_eq, String.length_append] at h'
  have e1 : ("start.log" : String).length = 9 := by decide
  have e2 : ("_" : String).length = 1 := by decide
  have e3 : ("_run.log" : String).length = 8 := by decide
  rw [e1, e2, e3] at h'
  have hp := one_le_length_repr pid
  have he := one_le_length_repr epoch
  omega

/-- The run path and the stop path of one feed differ. -/
theorem run_ne_stop_path (dir : String) (pid epoch : Nat) :
    (MiniMonFeed.init dir pid epoch).run_log_path ≠
      (MiniMonFeed.init dir pid epoch).stop_log_path := by
  intro h
  have h' := congrArg String.length h
  simp only [MiniMonFeed.init, os_path_join_eq, String.length_append] at h'
  have e1 : ("stop.log" : String).length = 8 := by decide
  have e2 : ("_" : String).length = 1 := by decide
  have e3 : ("_run.log" : String).length = 8 := by decide
  rw [e1, e2, e3] at h'
  have hp := one_le_length_repr pid
  have he := one_le_length_repr epoch
  omega

/-- One full successful iteration of the run loop with at least one more
iteration to come: the INFO write events, the sleep, then the rest of the
loop. -/
theorem while_loop_step (env : Env) (p : String) (c i m : Nat)
    (ho : env.openFails c = false) (hw : env.writeFails c = false) :
    while_loop env p c i (m + 2) =
      ([Event.fileOpen p,
        Event.console
          (pline env c ("INFO: Running log message " ++ Nat.repr (i + 1)) ++ "\n"),
        Event.fileAppend p
          (lineAt env c ("INFO: Running log message " ++ Nat.repr (i + 1)))]
        ++ Event.sleep :: (while_loop env p (c + 1) (i + 1) (m + 1)).1,
       (while_loop env p (c + 1) (i + 1) (m + 1)).2.1,
       (while_loop env p (c + 1) (i + 1) (m + 1)).2.2) := by
  conv_lhs => rw [while_loop]
  rw [write_log_ok env c p _ ho hw]

/-- Peeling one INFO line off the front of a block of expected INFO lines. -/
theorem infoLines_succ (env : Env) (c i m : Nat) :
    (List.range (m + 1)).map
        (fun n => lineAt env (c + n)
          ("INFO: Running log message " ++ Nat.repr (i + n + 1)))
      = lineAt env c ("INFO: Running log message " ++ Nat.repr (i + 1))
        :: (List.range m).map
            (fun n => lineAt env (c + 1 + n)
              ("INFO: Running log message " ++ Nat.repr (i + 1 + n + 1))) := by
  rw [List.range_succ_eq_map, List.map_cons, List.map_map]
  refine congr (congrArg List.cons (by simp)) (List.map_congr_left ?_)
  intro a ha
  simp only [Function.comp_apply]
  have h1 : c + (a + 1) = c + 1 + a := by omega
  have h2 : i + (a + 1) + 1 = i + 1 + a + 1 := by omega
  rw [h1, h2]

/-- Run-loop characterization in a failure-free environment: cancelled after
`k` completed iterations, the loop appends exactly the INFO lines numbered
`i + 1` through `i + k` (at consecutive call numbers starting at `c`), leaves
by `KeyboardInterrupt`, and advances the call number by `k`. -/
theorem while_loop_spec (env : Env) (p : String)
    (ho : ∀ n, env.openFails n = false) (hw : ∀ n, env.writeFails n = false) :
    ∀ (k c i : Nat),
      appendsTo p (while_loop env p c i k).1
        = (List.range k).map
            (fun n => lineAt env (c + n)
              ("INFO: Running log message " ++ Nat.repr (i + n + 1)))
      ∧ (while_loop env p c i k).2.1 = PyExn.keyboardInterrupt
      ∧ (while_loop env p c i k).2.2 = c + k := by
  intro k
  induction k with
  | zero => intro c i; simp [while_loop, appendsTo]
  | succ m ih =>
    intro c i
    cases m with
    | zero =>
      rw [infoLines_succ env c i 0]
      simp [while_loop, write_log_ok env c p _ (ho c) (hw c),
        appendsTo_append, appendsTo]
    | succ m' =>
      obtain ⟨ih1, ih2, ih3⟩ := ih (c + 1) (i + 1)
      rw [while_loop_step env p c i m' (ho c) (hw c)]
      refine ⟨?_, ih2, by rw [ih3]; omega⟩
      rw [show Event.sleep :: (while_loop env p (c + 1) (i + 1) (m' + 1)).1
            = [Event.sleep] ++ (while_loop env p (c + 1) (i + 1) (m' + 1)).1
          from rfl]
      rw [appendsTo_append, appendsTo_append,
        infoLines_succ env c i (m' + 1), ih1]
      simp [appendsTo]

/-- Full unfolding of `run_log` in a failure-free environment, cancelled after
`k` completed iterations: the run log receives the start marker, the `k` INFO
lines numbered 1 through `k`, then the end marker written by the finally
clause; the surviving exception is the `KeyboardInterrupt` and the call
number advances by `k + 2`. -/
theorem run_log_spec (env : Env) (feed : MiniMonFeed)
    (ho : ∀ n, env.openFails n = false) (hw : ∀ n, env.writeFails n = false)
    (c k : Nat) :
    appendsTo feed.run_log_path (run_log env feed c k).1
      = expectedRunLines env feed.pid c k
    ∧ (run_log env feed c k).2.1 = PyExn.keyboardInterrupt
    ∧ (run_log env feed c k).2.2 = c + k + 2 := by
  obtain ⟨w1, w2, w3⟩ := while_loop_spec env feed.run_log_path ho hw k (c + 1) 0
  have hb : run_log_body env feed c k
      = ([Event.fileOpen feed.run_log_path,
          Event.console
            (pline env c ("Start logging: " ++ Nat.repr feed.pid) ++ "\n"),
          Event.fileAppend feed.run_log_path
            (lineAt env c ("Start logging: " ++ Nat.repr feed.pid))]
          ++ (while_loop env feed.run_log_path (c + 1) 0 k).1,
         (while_loop env feed.run_log_path (c + 1) 0 k).2.1,
         (while_loop env feed.run_log_path (c + 1) 0 k).2.2) := by
    unfold run_log_body
    rw [write_log_ok env c feed.run_log_path _ (ho c) (hw c)]
  have hrl : run_log env feed c k
      = ((run_log_body env feed c k).1
           ++ [Event.fileOpen feed.run_log_path,
               Event.console
                 (pline env (run_log_body env feed c k).2.2
                   ("End logging: " ++ Nat.repr feed.pid) ++ "\n"),
               Event.fileAppend feed.run_log_path
                 (lineAt env (run_log_body env feed c k).2.2
                   ("End logging: " ++ Nat.repr feed.pid))],
         (run_log_body env feed c k).2.1,
         (run_log_body env feed c k).2.2 + 1) := by
    simp only [run_log]
    rw [write_log_ok env _ feed.run_log_path _ (ho _) (hw _)]
    rfl
  refine ⟨?_, ?_, ?_⟩
  · rw [hrl, hb]
    simp [appendsTo_append, appendsTo, w1, w3, expectedRunLines]
  · rw [hrl, hb]
    simpa using w2
  · rw [hrl, hb]
    simp [w3]
    omega

/-- Full unfolding of the top-level try body in a failure-free environment:
the start marker events, then the run loop events. -/
theorem main_body_nofail (env : Env) (feed : MiniMonFeed)
    (ho : ∀ n, env.openFails n = false) (hw : ∀ n, env.writeFails n = false)
    (k : Nat) :
    main_body env feed k
      = ([Event.fileOpen feed.start_log_path,
          Event.console
            (pline env 0 (Nat.repr feed.pid ++ ": Program started") ++ "\n"),
          Event.fileAppend feed.start_log_path
            (lineAt env 0 (Nat.repr feed.pid ++ ": Program started"))]
          ++ (run_log env feed 1 k).1,
         (run_log env feed 1 k).2.1, (run_log env feed 1 k).2.2) := by
  unfold main_body start_log
  rw [write_log_ok env 0 _ _ (ho 0) (hw 0)]

/-- With exactly one user argument the main block always runs the try body
and then the stop marker, and the surviving exception propagates uncaught. -/
theorem main_run_decomp (env : Env) (script dir : String) (k : Nat) :
    main_run env [script, dir] k
      = ((main_body env (MiniMonFeed.init dir env.pid env.epoch) k).1
           ++ (stop_log env
                (main_body env (MiniMonFeed.init dir env.pid env.epoch) k).2.2
                (MiniMonFeed.init dir env.pid env.epoch)).1,
         MainResult.uncaught
           ((stop_log env
                (main_body env (MiniMonFeed.init dir env.pid env.epoch) k).2.2
                (MiniMonFeed.init dir env.pid env.epoch)).2.getD
              (main_body env (MiniMonFeed.init dir env.pid env.epoch) k).2.1)) :=
  rfl

/-- All file operations of a trace target paths in `S`. -/
def touchesWithin (S : List String) (es : List Event) : Prop :=
  ∀ e ∈ es, ∀ p, touches e = some p → p ∈ S

/-- Concatenation preserves the touched-path bound. -/
theorem touchesWithin_append {S : List String} {a b : List Event}
    (ha : touchesWithin S a) (hb : touchesWithin S b) :
    touchesWithin S (a ++ b) := by
  intro e he p hp
  rcases List.mem_append.mp he with h | h
  · exact ha e h p hp
  · exact hb e h p hp

/-- Enlarging the path set preserves the touched-path bound. -/
theorem touchesWithin_mono {S T : List String} {es : List Event}
    (h : touchesWithin S es) (hst : ∀ x ∈ S, x ∈ T) :
    touchesWithin T es := by
  intro e he p hp
  exact hst p (h e he p hp)

/-- A single `_write_log` call only touches its own target path, on every
branch (open failure, write failure, success). -/
theorem touchesWithin_write_log (env : Env) (c : Nat) (p m : String) :
    touchesWithin [p] (write_log env c p m).1 := by
  intro e he q hq
  unfold write_log at he
  split at he
  · simp at he
  · split at he
    · simp at he
      rcases he with h | h <;> subst h <;>
        simp [touches] at hq <;> simp [hq]
    · simp at he
      rcases he with h | h | h <;> subst h <;>
        simp [touches] at hq <;> simp [hq]

/-- The run loop only touches the run-log path, on every branch. -/
theorem touchesWithin_while_loop (env : Env) (p : String) :
    ∀ (k c i : Nat), touchesWithin [p] (while_loop env p c i k).1 := by
  intro k
  induction k with
  | zero =>
    intro c i e he q hq
    simp [while_loop] at he
  | succ m ih =>
    intro c i
    have hw := touchesWithin_write_log env c p
      ("INFO: Running log message " ++ Nat.repr (i + 1))
    rcases hwl : write_log env c p
        ("INFO: Running log message " ++ Nat.repr (i + 1)) with ⟨ev, e?⟩
    rw [hwl] at hw
    cases e? with
    | some e =>
      intro x hx q hq
      rw [while_loop] at hx
      rw [hwl] at hx
      exact hw x hx q hq
    | none =>
      cases m with
      | zero =>
        intro x hx q hq
        rw [while_loop] at hx
        rw [hwl] at hx
        simp at hx
        rcases hx with h | h
        · exact hw x (by simp [h]) q hq
        · subst h; simp [touches] at hq
      | succ m' =>
        intro x hx q hq
        rw [while_loop] at hx
        rw [hwl] at hx
        simp at hx
        rcases hx with h | h | h
        · exact hw x (by simp [h]) q hq
        · subst h; simp [touches] at hq
        · exact ih (c + 1) (i + 1) x h q hq

/-- The whole run-log method (body plus finally clause) only touches the
run-log path, on every branch. -/
theorem touchesWithin_run_log (env : Env) (feed : MiniMonFeed) (c k : Nat) :
    touchesWithin [feed.run_log_path] (run_log env feed c k).1 := by
  have hbody : touchesWithin [feed.run_log_path] (run_log_body env feed c k).1 := by
    have hw := touchesWithin_write_log env c feed.run_log_path
      ("Start logging: " ++ Nat.repr feed.pid)
    rcases hwl : write_log env c feed.run_log_path
        ("Start logging: " ++ Nat.repr feed.pid) with ⟨ev, e?⟩
    rw [hwl] at hw
    cases e? with
    | some e =>
      intro x hx q hq
      rw [run_log_body, hwl] at hx
      exact hw x hx q hq
    | none =>
      intro x hx q hq
      rw [run_log_body, hwl] at hx
      simp at hx
      rcases hx with h | h
      · exact hw x (by simp [h]) q hq
      · exact touchesWithin_while_loop env feed.run_log_path k (c + 1) 0 x h q hq
  intro x hx q hq
  rw [run_log] at hx
  simp only [List.mem_append] at hx
  rcases hx with h | h
  · exact hbody x h q hq
  · exact touchesWithin_write_log env _ feed.run_log_path _ x h q hq

/-- The top-level try body only touches the start-log and run-log paths, on
every branch. -/
theorem touchesWithin_main_body (env : Env) (feed : MiniMonFeed) (k : Nat) :
    touchesWithin [feed.start_log_path, feed.run_log_path]
      (main_body env feed k).1 := by
  have hs : touchesWithin [feed.start_log_path, feed.run_log_path]
      (start_log env 0 feed).1 :=
    touchesWithin_mono (touchesWithin_write_log env 0 feed.start_log_path _)
      (by intro x hx; simp at hx; simp [hx])
  rcases hwl : start_log env 0 feed with ⟨ev, e?⟩
  rw [hwl] at hs
  cases e? with
  | some e =>
    intro x hx q hq
    rw [main_body, hwl] at hx
    exact hs x hx q hq
  | none =>
    intro x hx q hq
    rw [main_body, hwl] at hx
    simp at hx
    rcases hx with h | h
    · exact hs x (by simp [h]) q hq
    · have := touchesWithin_run_log env feed 1 k x h q hq
      simp at this
      simp [this]

/-- The whole process (with exactly one user argument) only touches the three
paths computed at construction. -/
theorem touchesWithin_main_run (env : Env) (script dir : String) (k : Nat) :
    touchesWithin
      [(MiniMonFeed.init dir env.pid env.epoch).start_log_path,
       (MiniMonFeed.init dir env.pid env.epoch).run_log_path,
       (MiniMonFeed.init dir env.pid env.epoch).stop_log_path]
      (main_run env [script, dir] k).1 := by
  rw [main_run_decomp]
  apply touchesWithin_append
  · exact touchesWithin_mono
      (touchesWithin_main_body env (MiniMonFeed.init dir env.pid env.epoch) k)
      (by intro x hx; simp at hx; rcases hx with h | h <;> simp [h])
  · exact touchesWithin_mono
      (touchesWithin_write_log env _ (MiniMonFeed.init dir env.pid env.epoch).stop_log_path _)
      (by intro x hx; simp at hx; simp [hx])

/-- A trace bounded to paths other than `q` appends nothing to `q`. -/
theorem appendsTo_eq_nil_of_touchesWithin {S : List String} {es : List Event}
    (h : touchesWithin S es) {q : String} (hq : q ∉ S) :
    appendsTo q es = [] := by
  apply appendsTo_eq_nil
  intro p s hm hpq
  subst hpq
  exact hq (h _ hm p rfl)

/-- C1: a call of `_write_log(target, message)` appends to the target file
exactly one line consisting of the local timestamp, the separator `: `, the
message and a newline; the file is opened in append mode, so all pre-existing
content is preserved with the new line after it, and no other file changes. -/
theorem c1_write_line_appends (env : Env) (c : Nat) (path message : String)
    (fs : String → String)
    (ho : env.openFails c = false) (hw : env.writeFails c = false) :
    applyEvents (write_log env c path message).1 fs path
        = fs path ++ (env.clock (2 * c + 1) ++ ": " ++ message ++ "\n")
    ∧ ∀ q, q ≠ path → applyEvents (write_log env c path message).1 fs q = fs q := by
  rw [write_log_ok env c path message ho hw]
  constructor
  · simp [applyEvents, lineAt]
  · intro q hq
    simp [applyEvents, hq]

/-- C1 witness at a concrete call on a file with pre-existing content. -/
theorem c1_write_line_appends_witness :
    envC.openFails 3 = false ∧ envC.writeFails 3 = false ∧
    applyEvents (write_log envC 3 "/tmp/x/start.log" "hello").1
        (fun _ => "pre\n") "/tmp/x/start.log"
      = "pre\n" ++ (envC.clock 7 ++ ": " ++ "hello" ++ "\n") :=
  ⟨rfl, rfl,
   (c1_write_line_appends envC 3 "/tmp/x/start.log" "hello"
     (fun _ => "pre\n") rfl rfl).1⟩

/-- C10: inside one `_write_log` call the console emission happens after the
file open and before the file write: an open failure produces no events at
all, hence nothing on the console; a write failure leaves the line on the
console with nothing appended to the file; a success produces open, console
emission, file append, in that order. -/
theorem c10_console_between_open_and_write (env : Env) (c : Nat) (p m : String) :
    (env.openFails c = true →
       (write_log env c p m).1 = [] ∧ consoleOf (write_log env c p m).1 = "")
    ∧ (env.openFails c = false → env.writeFails c = true →
       (write_log env c p m).1
           = [Event.fileOpen p, Event.console (pline env c m ++ "\n")]
       ∧ appendsTo p (write_log env c p m).1 = []
       ∧ consoleOf (write_log env c p m).1 = pline env c m ++ "\n")
    ∧ (env.openFails c = false → env.writeFails c = false →
       (write_log env c p m).1
           = [Event.fileOpen p, Event.console (pline env c m ++ "\n"),
              Event.fileAppend p (lineAt env c m)]) := by
  refine ⟨fun h => ?_, fun ho hw => ?_, fun ho hw => ?_⟩
  · rw [write_log_openFail env c p m h]
    exact ⟨rfl, rfl⟩
  · rw [write_log_writeFail env c p m ho hw]
    refine ⟨rfl, by simp [appendsTo], by simp [consoleOf]⟩
  · rw [write_log_ok env c p m ho hw]

/-- C10 witness: the three branches evaluated in concrete environments. -/
theorem c10_console_between_open_and_write_witness :
    (write_log envOpenFail 0 "f.log" "m").1 = []
    ∧ (write_log envWriteFail 0 "f.log" "m").1
        = [Event.fileOpen "f.log", Event.console (pline envWriteFail 0 "m" ++ "\n")]
    ∧ (write_log envK 0 "f.log" "m").1
        = [Event.fileOpen "f.log", Event.console (pline envK 0 "m" ++ "\n"),
           Event.fileAppend "f.log" (lineAt envK 0 "m")] :=
  ⟨((c10_console_between_open_and_write envOpenFail 0 "f.log" "m").1 rfl).1,
   ((c10_console_between_open_and_write envWriteFail 0 "f.log" "m").2.1 rfl rfl).1,
   (c10_console_between_open_and_write envK 0 "f.log" "m").2.2 rfl rfl⟩

/-- C7 counterexample: at a concrete call the bytes emitted to the console
differ from the bytes appended to the file, because `print` appends its own
newline to a line that already ends in one. -/
theorem c7_console_counterexample :
    consoleOf (write_log envK 0 "/tmp/x/start.log" "100: Program started").1
      ≠ catStrings (appendsTo "/tmp/x/start.log"
          (write_log envK 0 "/tmp/x/start.log" "100: Program started").1) := by
  decide

/-- C7 amended: every successful `_write_log` call emits to standard output
the appended line followed by one extra newline (not the identical byte
sequence); when the two strftime reads of the call return the same timestamp,
the console bytes are exactly the file bytes plus a trailing newline. -/
theorem c7_console_duplicates_line (env : Env) (c : Nat) (p m : String)
    (ho : env.openFails c = false) (hw : env.writeFails c = false)
    (hclock : env.clock (2 * c) = env.clock (2 * c + 1)) :
    appendsTo p (write_log env c p m).1 = [lineAt env c m]
    ∧ consoleOf (write_log env c p m).1
        = catStrings (appendsTo p (write_log env c p m).1) ++ "\n" := by
  rw [write_log_ok env c p m ho hw]
  constructor
  · simp [appendsTo]
  · simp [consoleOf, appendsTo, catStrings, pline, lineAt, hclock]

/-- C7 amended witness at a concrete call. -/
theorem c7_console_duplicates_line_witness :
    envK.clock 0 = envK.clock 1
    ∧ consoleOf (write_log envK 0 "f.log" "msg").1
        = catStrings (appendsTo "f.log" (write_log envK 0 "f.log" "msg").1) ++ "\n" :=
  ⟨rfl, (c7_console_duplicates_line envK 0 "f.log" "msg" rfl rfl rfl).2⟩

/-- C2: cancelled after `k` completed iterations in a failure-free run, the
run log receives exactly one start line, then exactly the INFO lines numbered
1 through `k` in increasing order with no gaps, then exactly one end line, in
that order; and on every exit path of the loop, cancellation or propagated
write error, the finally clause makes the end line the last line appended to
the run log whenever that final write itself succeeds. -/
theorem c2_run_log_lines :
    (∀ (env : Env) (feed : MiniMonFeed) (c k : Nat),
       NoFail env →
       appendsTo feed.run_log_path (run_log env feed c k).1
         = expectedRunLines env feed.pid c k)
    ∧ (∀ (env : Env) (feed : MiniMonFeed) (c k : Nat),
       env.openFails (run_log_body env feed c k).2.2 = false →
       env.writeFails (run_log_body env feed c k).2.2 = false →
       (appendsTo feed.run_log_path (run_log env feed c k).1).getLast?
         = some (lineAt env (run_log_body env feed c k).2.2
             ("End logging: " ++ Nat.repr feed.pid))) := by
  constructor
  · intro env feed c k hnf
    exact (run_log_spec env feed hnf.1 hnf.2 c k).1
  · intro env feed c k ho hw
    have hf := write_log_ok env (run_log_body env feed c k).2.2 feed.run_log_path
      ("End logging: " ++ Nat.repr feed.pid) ho hw
    have hrl : (run_log env feed c k).1
        = (run_log_body env feed c k).1
            ++ (write_log env (run_log_body env feed c k).2.2 feed.run_log_path
                 ("End logging: " ++ Nat.repr feed.pid)).1 := rfl
    rw [hrl, appendsTo_append, hf]
    have hone : appendsTo feed.run_log_path
        (([Event.fileOpen feed.run_log_path,
           Event.console
             (pline env (run_log_body env feed c k).2.2
               ("End logging: " ++ Nat.repr feed.pid) ++ "\n"),
           Event.fileAppend feed.run_log_path
             (lineAt env (run_log_body env feed c k).2.2
               ("End logging: " ++ Nat.repr feed.pid))],
          (none : Option PyExn)).1)
        = [lineAt env (run_log_body env feed c k).2.2
            ("End logging: " ++ Nat.repr feed.pid)] := by
      simp [appendsTo]
    rw [hone]
    exact List.getLast?_concat _

/-- C2 witness: two iterations then cancellation, in the concrete
failure-free environment. -/
theorem c2_run_log_lines_witness :
    NoFail envC
    ∧ appendsTo (MiniMonFeed.init "/tmp/x" envC.pid envC.epoch).run_log_path
        (run_log envC (MiniMonFeed.init "/tmp/x" envC.pid envC.epoch) 1 2).1
      = expectedRunLines envC envC.pid 1 2 := by
  have hnf : NoFail envC := ⟨fun _ => rfl, fun _ => rfl⟩
  exact ⟨hnf, c2_run_log_lines.1 envC _ 1 2 hnf⟩

/-- C3: construction computes the start path as the output directory plus
`start.log`, the stop path as the output directory plus `stop.log`, and the
run path from the construction-time epoch seconds and process id; in
particular for directory `/tmp/x`, pid 100 and epoch 1700000000 the run path
is `/tmp/x/1700000000_100_run.log`. -/
theorem c3_construction_paths (dir : String) (pid epoch : Nat)
    (h1 : dir ≠ "") (h2 : dir.data.getLast? ≠ some '/') :
    (MiniMonFeed.init dir pid epoch).start_log_path = dir ++ "/" ++ "start.log"
    ∧ (MiniMonFeed.init dir pid epoch).run_log_path
        = dir ++ "/" ++ (Nat.repr epoch ++ "_" ++ Nat.repr pid ++ "_run.log")
    ∧ (MiniMonFeed.init dir pid epoch).stop_log_path = dir ++ "/" ++ "stop.log"
    ∧ (MiniMonFeed.init "/tmp/x" 100 1700000000).run_log_path
        = "/tmp/x/1700000000_100_run.log" := by
  have hcond : ¬(dir = "" ∨ dir.data.getLast? = some '/') := by
    rintro (h | h)
    · exact h1 h
    · exact h2 h
  refine ⟨?_, ?_, ?_, by decide⟩
  · show os_path_join dir "start.log" = dir ++ "/" ++ "start.log"
    rw [os_path_join, if_neg hcond]
  · show os_path_join dir (Nat.repr epoch ++ "_" ++ Nat.repr pid ++ "_run.log")
        = dir ++ "/" ++ (Nat.repr epoch ++ "_" ++ Nat.repr pid ++ "_run.log")
    rw [os_path_join, if_neg hcond]
  · show os_path_join dir "stop.log" = dir ++ "/" ++ "stop.log"
    rw [os_path_join, if_neg hcond]

/-- C3 witness at the concrete scenario directory. -/
theorem c3_construction_paths_witness :
    ("/tmp/x" : String) ≠ ""
    ∧ (MiniMonFeed.init "/tmp/x" 100 1700000000).start_log_path
        = "/tmp/x" ++ "/" ++ "start.log"
    ∧ (MiniMonFeed.init "/tmp/x" 100 1700000000).run_log_path
        = "/tmp/x/1700000000_100_run.log" := by
  refine ⟨by decide, ?_, ?_⟩
  · exact (c3_construction_paths "/tmp/x" 100 1700000000 (by decide) (by decide)).1
  · exact (c3_construction_paths "/tmp/x" 100 1700000000 (by decide) (by decide)).2.2.2

/-- C4: with one user argument the stop-marker call is made exactly once per
invocation, as the trailing part of the trace after the try body, on every
execution path (cancellation or propagated error); when its write succeeds,
the stop log receives exactly the one line timestamp, separator, `End logging
pid: Program stopped`. -/
theorem c4_stop_marker (env : Env) (script dir : String) (k : Nat) :
    (main_run env [script, dir] k).1
      = (main_body env (MiniMonFeed.init dir env.pid env.epoch) k).1
        ++ (stop_log env
             (main_body env (MiniMonFeed.init dir env.pid env.epoch) k).2.2
             (MiniMonFeed.init dir env.pid env.epoch)).1
    ∧ (env.openFails
          (main_body env (MiniMonFeed.init dir env.pid env.epoch) k).2.2 = false →
       env.writeFails
          (main_body env (MiniMonFeed.init dir env.pid env.epoch) k).2.2 = false →
       appendsTo (MiniMonFeed.init dir env.pid env.epoch).stop_log_path
           (main_run env [script, dir] k).1
         = [lineAt env
             (main_body env (MiniMonFeed.init dir env.pid env.epoch) k).2.2
             ("End logging " ++ Nat.repr env.pid ++ ": Program stopped")]) := by
  refine ⟨rfl, fun ho hw => ?_⟩
  have htrace : (main_run env [script, dir] k).1
      = (main_body env (MiniMonFeed.init dir env.pid env.epoch) k).1
        ++ (stop_log env
             (main_body env (MiniMonFeed.init dir env.pid env.epoch) k).2.2
             (MiniMonFeed.init dir env.pid env.epoch)).1 := rfl
  rw [htrace, appendsTo_append]
  have hnil : appendsTo (MiniMonFeed.init dir env.pid env.epoch).stop_log_path
      (main_body env (MiniMonFeed.init dir env.pid env.epoch) k).1 = [] := by
    apply appendsTo_eq_nil_of_touchesWithin
      (touchesWithin_main_body env (MiniMonFeed.init dir env.pid env.epoch) k)
    intro hmem
    simp at hmem
    rcases hmem with h | h
    · exact start_ne_stop_path dir env.pid env.epoch h.symm
    · exact run_ne_stop_path dir env.pid env.epoch h.symm
  rw [hnil]
  unfold stop_log
  rw [write_log_ok env _ (MiniMonFeed.init dir env.pid env.epoch).stop_log_path _ ho hw]
  simp [appendsTo]
  rfl

/-- C4 witness: concrete failure-free run with two iterations. -/
theorem c4_stop_marker_witness :
    envC.openFails
        (main_body envC (MiniMonFeed.init "/tmp/x" envC.pid envC.epoch) 2).2.2 = false
    ∧ appendsTo (MiniMonFeed.init "/tmp/x" envC.pid envC.epoch).stop_log_path
        (main_run envC ["minimon_feed.py", "/tmp/x"] 2).1
      = [lineAt envC
          (main_body envC (MiniMonFeed.init "/tmp/x" envC.pid envC.epoch) 2).2.2
          ("End logging " ++ Nat.repr envC.pid ++ ": Program stopped")] :=
  ⟨rfl, (c4_stop_marker envC "minimon_feed.py" "/tmp/x" 2).2 rfl rfl⟩

/-- C5: invoked with an argument count other than one the program prints the
usage message to the console stream and exits with status 1, producing no
file events at all; with exactly one argument it never takes the usage exit
path. -/
theorem c5_usage_exit :
    (∀ (env : Env) (script : String) (args : List String) (k : Nat),
       args.length ≠ 1 →
       main_run env (script :: args) k
         = ([Event.console (usageMsg ++ "\n")], MainResult.exited 1))
    ∧ (∀ (env : Env) (script dir : String) (k : Nat) (code : Nat),
       (main_run env [script, dir] k).2 ≠ MainResult.exited code) := by
  constructor
  · intro env script args k h
    have h2 : (script :: args).length ≠ 2 := by
      simp only [List.length_cons]
      omega
    unfold main_run
    rw [if_pos h2]
  · intro env script dir k code
    rw [main_run_decomp]
    simp

/-- C5 witness: zero user arguments exit with the usage message; one user
argument does not take the usage exit. -/
theorem c5_usage_exit_witness :
    main_run envC ["minimon_feed.py"] 0
      = ([Event.console (usageMsg ++ "\n")], MainResult.exited 1)
    ∧ (main_run envC ["minimon_feed.py", "/tmp/x"] 0).2 ≠ MainResult.exited 1 :=
  ⟨c5_usage_exit.1 envC "minimon_feed.py" [] 0 (by decide),
   c5_usage_exit.2 envC "minimon_feed.py" "/tmp/x" 0 1⟩

/-- C6: the three log paths are computed once at construction and no later
operation changes them: every file event of the whole process trace targets
one of the construction-time paths. -/
theorem c6_paths_fixed (env : Env) (script dir : String) (k : Nat)
    (e : Event) (p : String)
    (he : e ∈ (main_run env [script, dir] k).1)
    (hp : touches e = some p) :
    p = (MiniMonFeed.init dir env.pid env.epoch).start_log_path
    ∨ p = (MiniMonFeed.init dir env.pid env.epoch).run_log_path
    ∨ p = (MiniMonFeed.init dir env.pid env.epoch).stop_log_path := by
  have h := touchesWithin_main_run env script dir k e he p hp
  simpa using h

/-- C6 witness: the first file event of a concrete run targets the
construction-time start path. -/
theorem c6_paths_fixed_witness :
    Event.fileOpen (MiniMonFeed.init "/tmp/x" envC.pid envC.epoch).start_log_path
        ∈ (main_run envC ["minimon_feed.py", "/tmp/x"] 0).1
    ∧ ((MiniMonFeed.init "/tmp/x" envC.pid envC.epoch).start_log_path
          = (MiniMonFeed.init "/tmp/x" envC.pid envC.epoch).start_log_path
       ∨ (MiniMonFeed.init "/tmp/x" envC.pid envC.epoch).start_log_path
          = (MiniMonFeed.init "/tmp/x" envC.pid envC.epoch).run_log_path
       ∨ (MiniMonFeed.init "/tmp/x" envC.pid envC.epoch).start_log_path
          = (MiniMonFeed.init "/tmp/x" envC.pid envC.epoch).stop_log_path) := by
  have hmem : Event.fileOpen
      (MiniMonFeed.init "/tmp/x" envC.pid envC.epoch).start_log_path
      ∈ (main_run envC ["minimon_feed.py", "/tmp/x"] 0).1 := by decide
  exact ⟨hmem,
    c6_paths_fixed envC "minimon_feed.py" "/tmp/x" 0 _ _ hmem rfl⟩

/-- C8 counterexample: a concrete externally cancelled run whose cleanup
writes all succeed (the stop log receives its line) still does not exit with
status 0: the `KeyboardInterrupt` propagates uncaught out of the script. -/
theorem c8_exit_counterexample :
    (main_run envK ["minimon_feed.py", "/tmp/x"] 0).2
        = MainResult.uncaught PyExn.keyboardInterrupt
    ∧ appendsTo (MiniMonFeed.init "/tmp/x" envK.pid envK.epoch).stop_log_path
        (main_run envK ["minimon_feed.py", "/tmp/x"] 0).1 ≠ []
    ∧ exit_status (main_run envK ["minimon_feed.py", "/tmp/x"] 0).2 ≠ 0 := by
  refine ⟨by decide, by decide, by decide⟩

/-- C8 amended: when the process is externally cancelled and no write fails,
the cleanup writes complete, but the `KeyboardInterrupt` propagates uncaught
out of the script, so the process terminates with the non-zero SIGINT status
130, not with status 0. -/
theorem c8_cancel_exit_nonzero (env : Env) (script dir : String) (k : Nat)
    (hnf : NoFail env) :
    (main_run env [script, dir] k).2
        = MainResult.uncaught PyExn.keyboardInterrupt
    ∧ exit_status (main_run env [script, dir] k).2 = 130
    ∧ exit_status (main_run env [script, dir] k).2 ≠ 0 := by
  obtain ⟨ho, hw⟩ := hnf
  have hstop : (stop_log env
      (main_body env (MiniMonFeed.init dir env.pid env.epoch) k).2.2
      (MiniMonFeed.init dir env.pid env.epoch)).2 = none := by
    unfold stop_log
    rw [write_log_ok env _ _ _ (ho _) (hw _)]
  have hbody : (main_body env (MiniMonFeed.init dir env.pid env.epoch) k).2.1
      = PyExn.keyboardInterrupt := by
    rw [main_body_nofail env (MiniMonFeed.init dir env.pid env.epoch) ho hw k]
    simpa using
      (run_log_spec env (MiniMonFeed.init dir env.pid env.epoch) ho hw 1 k).2.1
  have hres : (main_run env [script, dir] k).2
      = MainResult.uncaught PyExn.keyboardInterrupt := by
    rw [main_run_decomp]
    simp [hstop, hbody]
  exact ⟨hres, by rw [hres]; rfl, by rw [hres]; decide⟩

/-- C8 amended witness: three iterations then cancellation in the concrete
failure-free environment. -/
theorem c8_cancel_exit_nonzero_witness :
    NoFail envK
    ∧ exit_status (main_run envK ["minimon_feed.py", "/tmp/x"] 3).2 = 130 := by
  have hnf : NoFail envK := ⟨fun _ => rfl, fun _ => rfl⟩
  exact ⟨hnf,
    (c8_cancel_exit_nonzero envK "minimon_feed.py" "/tmp/x" 3 hnf).2.1⟩

/-- C9: when the start-marker write raises an IOError before the run loop is
ever entered, the stop marker still runs: with the stop write succeeding,
start.log and the run log receive no lines, stop.log receives the Program
stopped line, and the IOError propagates uncaught. -/
theorem c9_stop_after_start_failure (env : Env) (script dir : String) (k : Nat)
    (h0 : env.openFails 0 = true)
    (h1o : env.openFails 1 = false) (h1w : env.writeFails 1 = false) :
    appendsTo (MiniMonFeed.init dir env.pid env.epoch).start_log_path
        (main_run env [script, dir] k).1 = []
    ∧ appendsTo (MiniMonFeed.init dir env.pid env.epoch).run_log_path
        (main_run env [script, dir] k).1 = []
    ∧ appendsTo (MiniMonFeed.init dir env.pid env.epoch).stop_log_path
        (main_run env [script, dir] k).1
      = [lineAt env 1
          ("End logging " ++ Nat.repr env.pid ++ ": Program stopped")]
    ∧ (main_run env [script, dir] k).2 = MainResult.uncaught PyExn.ioError := by
  have hbody : main_body env (MiniMonFeed.init dir env.pid env.epoch) k
      = ([], PyExn.ioError, 1) := by
    unfold main_body start_log
    rw [write_log_openFail env 0 _ _ h0]
  have hstop := write_log_ok env 1
    (MiniMonFeed.init dir env.pid env.epoch).stop_log_path
    ("End logging " ++ Nat.repr env.pid ++ ": Program stopped") h1o h1w
  have htrace : (main_run env [script, dir] k).1
      = (main_body env (MiniMonFeed.init dir env.pid env.epoch) k).1
        ++ (stop_log env
             (main_body env (MiniMonFeed.init dir env.pid env.epoch) k).2.2
             (MiniMonFeed.init dir env.pid env.epoch)).1 := rfl
  have hs2 : stop_log env 1 (MiniMonFeed.init dir env.pid env.epoch)
      = write_log env 1 (MiniMonFeed.init dir env.pid env.epoch).stop_log_path
          ("End logging " ++ Nat.repr env.pid ++ ": Program stopped") := rfl
  have hne1 : (MiniMonFeed.init dir env.pid env.epoch).stop_log_path
      ≠ (MiniMonFeed.init dir env.pid env.epoch).start_log_path :=
    fun h => start_ne_stop_path dir env.pid env.epoch h.symm
  have hne2 : (MiniMonFeed.init dir env.pid env.epoch).stop_log_path
      ≠ (MiniMonFeed.init dir env.pid env.epoch).run_log_path :=
    fun h => run_ne_stop_path dir env.pid env.epoch h.symm
  refine ⟨?_, ?_, ?_, ?_⟩
  · rw [htrace, hbody, appendsTo_append]
    simp [appendsTo, hs2, hstop, hne1]
  · rw [htrace, hbody, appendsTo_append]
    simp [appendsTo, hs2, hstop, hne2]
  · rw [htrace, hbody, appendsTo_append]
    simp [appendsTo, hs2, hstop]
  · have hres : (main_run env [script, dir] k).2
        = MainResult.uncaught
            ((stop_log env
               (main_body env (MiniMonFeed.init dir env.pid env.epoch) k).2.2
               (MiniMonFeed.init dir env.pid env.epoch)).2.getD
              (main_body env (MiniMonFeed.init dir env.pid env.epoch) k).2.1) := rfl
    rw [hres, hbody]
    simp [hs2, hstop]

/-- C9 witness in the concrete environment whose call number 0 fails at the
open. -/
theorem c9_stop_after_start_failure_witness :
    envOpenFail.openFails 0 = true
    ∧ appendsTo (MiniMonFeed.init "/tmp/x" envOpenFail.pid envOpenFail.epoch).stop_log_path
        (main_run envOpenFail ["minimon_feed.py", "/tmp/x"] 5).1
      = [lineAt envOpenFail 1
          ("End logging " ++ Nat.repr envOpenFail.pid ++ ": Program stopped")] :=
  ⟨rfl,
   (c9_stop_after_start_failure envOpenFail "minimon_feed.py" "/tmp/x" 5
     rfl rfl rfl).2.2.1⟩
